import Mathlib

/-!
Verification of the adasa process supervisor core against its source.

The Rust source is shallowly embedded: pure functions become Lean functions,
stateful methods become explicit state-passing functions, machine integers
become `Nat` with explicit saturation or truncation where the source has it,
and fallible operations return `Except` or carry an `Option` error field.
Operating-system behaviour (clock readings, pid liveness, spawned pids,
child-exit timing, file-system outcomes) is supplied through explicit
environment parameters, since the source observes it only through syscalls.
-/

namespace Adasa

/-- Largest value of a Rust `u64`; saturating arithmetic clamps here. -/
def U64MAX : Nat := 18446744073709551615

/-- POSIX signals used by the supervisor (from `nix::sys::signal::Signal`
restricted to the variants the source names). -/
inductive Signal where
  | SIGTERM | SIGINT | SIGQUIT | SIGKILL | SIGHUP | SIGUSR1 | SIGUSR2
  deriving DecidableEq, Repr

/-- Translation of the signal names accepted by `ProcessConfig::validate`
(config/mod.rs `valid_signals`) to the signal they denote. -/
def signalOfString : String → Option Signal
  | "SIGTERM" => some .SIGTERM
  | "SIGINT" => some .SIGINT
  | "SIGQUIT" => some .SIGQUIT
  | "SIGKILL" => some .SIGKILL
  | "SIGHUP" => some .SIGHUP
  | "SIGUSR1" => some .SIGUSR1
  | "SIGUSR2" => some .SIGUSR2
  | _ => none

/-- Error taxonomy of `error.rs` restricted to the variants reached by the
embedded operations. Message payloads are kept as strings. -/
inductive AdasaError where
  | ProcessNotFound (id : String)
  | ProcessAlreadyExists (name : String)
  | StopError (name msg : String)
  | SpawnError (msg : String)
  | ConfigValidationError (msg : String)
  | MissingConfigField (field : String)
  | StateCorruption (msg : String)
  | StateLoadError (msg : String)
  | StateSaveError (msg : String)
  deriving DecidableEq, Repr

/-! ## process/restart.rs -/

/-- Embedding of `SystemTime::duration_since`: defined exactly when the
argument does not lie in the future. Time is measured in seconds as `Nat`. -/
def durationSince (now t : Nat) : Option Nat :=
  if t ≤ now then some (now - t) else none

/-- Embedding of `BackoffStrategy` (process/restart.rs). -/
inductive BackoffStrategy where
  | Fixed
  | Exponential (max_delay_secs : Nat)
  deriving DecidableEq, Repr

/-- Rust `u64::saturating_mul`. -/
def satMulU64 (a b : Nat) : Nat := min (a * b) U64MAX

/-- Rust `2_u64.saturating_pow e`. -/
def satPow2U64 (e : Nat) : Nat := min (2 ^ e) U64MAX

/-- Embedding of `BackoffStrategy::calculate_delay` (process/restart.rs,
lines 77-88). The source computes
`initial.saturating_mul(2u64.saturating_pow(restart_count as u32)).min(max)`;
the `as u32` cast truncates the `usize` restart count modulo `2^32`. The
result is the delay in whole seconds. -/
def BackoffStrategy.calculate_delay (s : BackoffStrategy)
    (initial_delay_secs restart_count : Nat) : Nat :=
  match s with
  | .Fixed => initial_delay_secs
  | .Exponential max_delay_secs =>
      min (satMulU64 initial_delay_secs (satPow2U64 (restart_count % 2 ^ 32)))
        max_delay_secs

/-- Embedding of `RestartTracker` (process/restart.rs): the ordered list of
restart timestamps, in seconds. -/
structure RestartTracker where
  restart_times : List Nat
  deriving DecidableEq, Repr

/-- Embedding of `RestartTracker::new`. -/
def RestartTracker.new : RestartTracker := ⟨[]⟩

/-- Embedding of `RestartTracker::record_restart`; `now` is the clock value
the source reads via `SystemTime::now()`. -/
def RestartTracker.record_restart (tr : RestartTracker) (now : Nat) :
    RestartTracker :=
  ⟨tr.restart_times ++ [now]⟩

/-- Embedding of `RestartTracker::restart_count`. -/
def RestartTracker.restart_count (tr : RestartTracker) : Nat :=
  tr.restart_times.length

/-- Embedding of `RestartTracker::count_recent_restarts` (process/restart.rs,
lines 117-129): counts entries whose `duration_since` from `now` is defined
and below the window; entries in the future make `duration_since` fail and
are treated as `false` by `unwrap_or(false)`. -/
def RestartTracker.count_recent_restarts (tr : RestartTracker)
    (now window_secs : Nat) : Nat :=
  (tr.restart_times.filter fun t =>
    ((durationSince now t).map (fun d => decide (d < window_secs))).getD false).length

/-- Embedding of `RestartTracker::prune_old_restarts`. -/
def RestartTracker.prune_old_restarts (tr : RestartTracker)
    (now window_secs : Nat) : RestartTracker :=
  ⟨tr.restart_times.filter fun t =>
    ((durationSince now t).map (fun d => decide (d < window_secs))).getD false⟩

/-- Embedding of `RestartPolicy` (process/restart.rs). -/
structure RestartPolicy where
  enabled : Bool
  max_restarts : Nat
  time_window_secs : Nat
  initial_delay_secs : Nat
  backoff_strategy : BackoffStrategy
  deriving DecidableEq, Repr

/-- Embedding of `RestartPolicy::from_config`. -/
def RestartPolicy.from_config (enabled : Bool)
    (max_restarts restart_delay_secs : Nat) : RestartPolicy :=
  ⟨enabled, max_restarts, 60, restart_delay_secs, .Exponential 60⟩

/-- Embedding of `RestartPolicy::should_restart` (process/restart.rs,
lines 42-50). -/
def RestartPolicy.should_restart (p : RestartPolicy) (tr : RestartTracker)
    (now : Nat) : Bool :=
  if !p.enabled then false
  else tr.count_recent_restarts now p.time_window_secs < p.max_restarts

/-- Embedding of `RestartPolicy::calculate_delay`. -/
def RestartPolicy.calculate_delay (p : RestartPolicy) (tr : RestartTracker) :
    Nat :=
  p.backoff_strategy.calculate_delay p.initial_delay_secs tr.restart_count

/-- Count of recent restarts written the way the specification states it:
an entry `t` is counted whenever `now - t < w` holds over the integers, so
any timestamp not earlier than `now` is included. Stated from the spec for
comparison with `RestartTracker.count_recent_restarts`. -/
def specCountRecent (tr : RestartTracker) (now window_secs : Nat) : Nat :=
  (tr.restart_times.filter fun t =>
    decide ((now : Int) - (t : Int) < (window_secs : Int))).length

/-! ## config/mod.rs -/

/-- Embedding of `ProcessConfig` (config/mod.rs). Paths are strings; the
environment map is an association list. -/
structure ProcessConfig where
  name : String
  script : String
  args : List String
  cwd : Option String
  env : List (String × String)
  instances : Nat
  autorestart : Bool
  max_restarts : Nat
  restart_delay_secs : Nat
  max_memory : Option Nat
  stop_signal : String
  stop_timeout_secs : Nat
  deriving DecidableEq, Repr

/-- Filesystem facts that `ProcessConfig::validate` queries through syscalls. -/
structure FsState where
  pathExists : String → Bool
  pathIsDir : String → Bool

/-- Signal names accepted by `ProcessConfig::validate` (config/mod.rs,
`valid_signals`). -/
def validSignals : List String :=
  ["SIGTERM", "SIGINT", "SIGQUIT", "SIGKILL", "SIGHUP", "SIGUSR1", "SIGUSR2"]

/-- Embedding of `ProcessConfig::validate` (config/mod.rs, lines 172-230). -/
def ProcessConfig.validate (c : ProcessConfig) (fs : FsState) :
    Except AdasaError Unit :=
  if c.name = "" then .error (.MissingConfigField "name")
  else if c.script = "" then .error (.MissingConfigField "script")
  else if c.instances = 0 then
    .error (.ConfigValidationError "instances must be at least 1")
  else if c.instances > 100 then
    .error (.ConfigValidationError "instances cannot exceed 100")
  else if c.max_restarts = 0 then
    .error (.ConfigValidationError "max_restarts must be at least 1")
  else if ¬ c.stop_signal ∈ validSignals then
    .error (.ConfigValidationError "Invalid stop_signal")
  else
    match c.cwd with
    | some d =>
        if ¬ fs.pathExists d then
          .error (.ConfigValidationError "Working directory does not exist")
        else if ¬ fs.pathIsDir d then
          .error (.ConfigValidationError "Working directory is not a directory")
        else .ok ()
    | none => .ok ()

/-- Embedding of `ProcessConfig::stop_timeout` (seconds). -/
def ProcessConfig.stop_timeout (c : ProcessConfig) : Nat := c.stop_timeout_secs

/-! ## process/manager.rs data model -/

/-- Embedding of `ProcessState` (process/manager.rs). -/
inductive ProcessState where
  | Starting | Running | Stopping | Stopped | Errored
  deriving DecidableEq, Repr

/-- Embedding of `ProcessStats` (process/manager.rs). CPU percent is kept as
a rational sample value. -/
structure ProcessStats where
  pid : Nat
  started_at : Nat
  restarts : Nat
  cpu_usage : ℚ
  memory_usage : Nat
  last_restart : Option Nat
  deriving DecidableEq, Repr

/-- Embedding of `ProcessStats::new`; `now` is the `SystemTime::now()` read. -/
def ProcessStats.new (pid now : Nat) : ProcessStats :=
  ⟨pid, now, 0, 0, 0, none⟩

/-- Embedding of `ProcessStats::record_restart` (process/manager.rs,
lines 100-108). -/
def ProcessStats.record_restart (st : ProcessStats) (new_pid now : Nat) :
    ProcessStats :=
  { st with
    restarts := st.restarts + 1
    last_restart := some now
    started_at := now
    pid := new_pid
    cpu_usage := 0
    memory_usage := 0 }

/-- Embedding of `ManagedProcess` (process/manager.rs). The tokio child
handle is represented in the kernel model `OsState` through the entry's pid. -/
structure ManagedProcess where
  id : Nat
  name : String
  config : ProcessConfig
  state : ProcessState
  stats : ProcessStats
  restart_policy : RestartPolicy
  restart_tracker : RestartTracker
  deriving DecidableEq, Repr

/-- Embedding of `ManagedProcess::new` followed by the state transitions the
source performs through `mark_*` methods. -/
def ManagedProcess.new (id : Nat) (name : String) (config : ProcessConfig)
    (spawnedPid now : Nat) : ManagedProcess :=
  { id := id
    name := name
    config := config
    state := .Starting
    stats := ProcessStats.new spawnedPid now
    restart_policy :=
      RestartPolicy.from_config config.autorestart config.max_restarts
        config.restart_delay_secs
    restart_tracker := RestartTracker.new }

/-- Embedding of `ManagedProcess::mark_running`. -/
def ManagedProcess.mark_running (p : ManagedProcess) : ManagedProcess :=
  { p with state := .Running }

/-- Embedding of `ManagedProcess::mark_stopping`. -/
def ManagedProcess.mark_stopping (p : ManagedProcess) : ManagedProcess :=
  { p with state := .Stopping }

/-- Embedding of `ManagedProcess::mark_stopped`. -/
def ManagedProcess.mark_stopped (p : ManagedProcess) : ManagedProcess :=
  { p with state := .Stopped }

/-- Embedding of `ManagedProcess::mark_errored`. -/
def ManagedProcess.mark_errored (p : ManagedProcess) : ManagedProcess :=
  { p with state := .Errored }

/-! ## process/monitor.rs data model -/

/-- Setting one pid's cached CPU sample, the net effect of the source's
`*self.cpu_cache.entry(pid).or_insert(0.0) = cpu_usage`. -/
def cacheSet (c : List (Nat × ℚ)) (pid : Nat) (v : ℚ) : List (Nat × ℚ) :=
  if c.any (fun e => e.1 == pid) then
    c.map fun e => if e.1 == pid then (e.1, v) else e
  else c ++ [(pid, v)]

/-- Embedding of `ProcessMonitor` (process/monitor.rs). `last_refresh` is an
`Instant` in milliseconds. -/
structure ProcessMonitor where
  cpu_cache : List (Nat × ℚ)
  last_refresh : Option Nat
  refresh_interval_ms : Nat
  deriving DecidableEq, Repr

/-- Embedding of `ProcessMonitor::new` (interval 200 ms). -/
def ProcessMonitor.new : ProcessMonitor := ⟨[], none, 200⟩

/-- Embedding of `ProcessMonitor::should_refresh`; `now_ms` is the current
`Instant`. -/
def ProcessMonitor.should_refresh (mon : ProcessMonitor) (now_ms : Nat) :
    Bool :=
  match mon.last_refresh with
  | none => true
  | some last => now_ms - last ≥ mon.refresh_interval_ms

/-- Embedding of `ProcessMonitor::clear_cache`. -/
def ProcessMonitor.clear_cache (mon : ProcessMonitor) (pid : Nat) :
    ProcessMonitor :=
  { mon with cpu_cache := mon.cpu_cache.filter fun e => ¬ e.1 = pid }

/-! ## Kernel model -/

/-- Kernel-side facts the supervisor observes through syscalls: the set of
live pids, per-pid resource samples, whether a signalled child exits within
a given timeout, and whether a `wait` call fails. -/
structure OsState where
  alive : List Nat
  exitsWithin : Nat → Nat → Bool
  waitFails : Bool
  cpu : Nat → ℚ
  mem : Nat → Nat

/-- A pid leaving the process table (killed, exited, or reaped). -/
def OsState.kill (os : OsState) (pid : Nat) : OsState :=
  { os with alive := os.alive.filter fun q => ¬ q = pid }

/-- A freshly spawned pid entering the process table. -/
def OsState.spawn (os : OsState) (pid : Nat) : OsState :=
  { os with alive := pid :: os.alive }

/-- Environment for one `spawn_process` call: syscall outcomes and the clock
readings taken while the caller updates the registry entry. -/
structure SpawnEnv where
  scriptExists : Bool
  spawnOk : Bool
  pidOk : Bool
  newPid : Nat
  now : Nat

/-- Embedding of `spawn_process` (process/spawner.rs): checks the script
path, builds and spawns the command, and returns the OS-assigned pid. -/
def spawn_process (config : ProcessConfig) (os : OsState) (env : SpawnEnv) :
    Except AdasaError (Nat × OsState) :=
  if ¬ env.scriptExists then
    .error (.SpawnError ("Script does not exist: " ++ config.script))
  else if ¬ env.spawnOk then
    .error (.SpawnError ("Failed to spawn process " ++ config.name))
  else if ¬ env.pidOk then
    .error (.SpawnError ("Failed to get PID for process " ++ config.name))
  else
    .ok (env.newPid, os.spawn env.newPid)

/-! ## process/manager.rs operations -/

/-- Embedding of `ProcessManager` (process/manager.rs): the id-keyed table
of managed processes, the id allocator, and the monitor. -/
structure ProcessManager where
  processes : List (Nat × ManagedProcess)
  next_id : Nat
  monitor : ProcessMonitor
  deriving DecidableEq, Repr

/-- Embedding of `ProcessManager::new`. -/
def ProcessManager.new : ProcessManager := ⟨[], 1, ProcessMonitor.new⟩

/-- Lookup in the process table (`self.processes.get(&id)`). -/
def ProcessManager.find (m : ProcessManager) (id : Nat) :
    Option ManagedProcess :=
  (m.processes.find? fun p => p.1 == id).map (·.2)

/-- In-place mutation of one entry (`self.processes.get_mut(&id)` followed
by field updates). -/
def ProcessManager.update (m : ProcessManager) (id : Nat)
    (f : ManagedProcess → ManagedProcess) : ProcessManager :=
  { m with
    processes := m.processes.map fun p => if p.1 == id then (p.1, f p.2) else p }

/-- `HashMap::insert` on the id-keyed table: replaces an existing binding of
the key or appends a new one. -/
def insertPair (l : List (Nat × ManagedProcess)) (id : Nat)
    (v : ManagedProcess) : List (Nat × ManagedProcess) :=
  if l.any (fun p => p.1 == id) then
    l.map fun p => if p.1 == id then (p.1, v) else p
  else l ++ [(id, v)]

/-- Result of `ProcessManager::spawn` together with the final registry and
kernel state. -/
structure SpawnOut where
  res : Except AdasaError Nat
  m : ProcessManager
  os : OsState

/-- Embedding of `ProcessManager::spawn` (process/manager.rs, lines
201-228): duplicate-name check, config validation, `spawn_process`, fresh id
allocation, insertion in state `Running`. -/
def ProcessManager.spawn (m : ProcessManager) (os : OsState) (fs : FsState)
    (env : SpawnEnv) (config : ProcessConfig) : SpawnOut :=
  if m.processes.any (fun p => p.2.name == config.name) then
    ⟨.error (.ProcessAlreadyExists config.name), m, os⟩
  else
    match config.validate fs with
    | .error e => ⟨.error e, m, os⟩
    | .ok _ =>
      match spawn_process config os env with
      | .error e => ⟨.error e, m, os⟩
      | .ok (pid, os1) =>
        let name := config.name
        let id := m.next_id
        let managed := (ManagedProcess.new id name config pid env.now).mark_running
        ⟨.ok id,
          { m with processes := insertPair m.processes id managed,
                   next_id := m.next_id + 1 },
          os1⟩

/-- Result of `ProcessManager::stop`: the Rust return value, the final
registry and kernel state, and the trace of signals delivered (pid paired
with the signal), in order. -/
structure StopOut where
  res : Except AdasaError Unit
  m : ProcessManager
  os : OsState
  events : List (Nat × Signal)

/-- Embedding of `ProcessManager::stop` (process/manager.rs, lines 239-301).
The entry is marked `Stopping`; `force` sends SIGKILL at once, otherwise
SIGTERM is sent (the source hardcodes `Signal::SIGTERM`) and the child is
awaited with timeout `config.stop_timeout()`, SIGKILL following on timeout.
Signal delivery to a pid absent from the process table fails with
`StopError`, as `nix::sys::signal::kill` does; early error returns keep the
mutations already made. -/
def ProcessManager.stop (m : ProcessManager) (os : OsState) (id : Nat)
    (force : Bool) : StopOut :=
  match m.find id with
  | none => ⟨.error (.ProcessNotFound (toString id)), m, os, []⟩
  | some p =>
    let m1 := m.update id ManagedProcess.mark_stopping
    let pid := p.stats.pid
    if force then
      if os.alive.contains pid then
        let os1 := os.kill pid
        ⟨.ok (), m1.update id ManagedProcess.mark_stopped, os1,
          [(pid, .SIGKILL)]⟩
      else
        ⟨.error (.StopError p.name "Failed to send SIGKILL"), m1, os,
          []⟩
    else
      if os.alive.contains pid then
        if os.waitFails then
          ⟨.error (.StopError p.name "Wait failed"), m1, os,
            [(pid, .SIGTERM)]⟩
        else if os.exitsWithin pid p.config.stop_timeout then
          let os1 := os.kill pid
          ⟨.ok (), m1.update id ManagedProcess.mark_stopped, os1,
            [(pid, .SIGTERM)]⟩
        else
          let os1 := os.kill pid
          ⟨.ok (), m1.update id ManagedProcess.mark_stopped, os1,
            [(pid, .SIGTERM), (pid, .SIGKILL)]⟩
      else
        ⟨.error (.StopError p.name "Failed to send SIGTERM"), m1, os,
          []⟩

/-- Result of `ProcessManager::remove`. -/
structure RemoveOut where
  res : Except AdasaError Unit
  m : ProcessManager

/-- Embedding of `ProcessManager::remove` (process/manager.rs, lines
329-339). -/
def ProcessManager.remove (m : ProcessManager) (id : Nat) : RemoveOut :=
  match m.find id with
  | none => ⟨.error (.ProcessNotFound (toString id)), m⟩
  | some p =>
    ⟨.ok (),
      { m with processes := m.processes.filter fun q => ¬ q.1 = id,
               monitor := m.monitor.clear_cache p.stats.pid }⟩

/-- The registry-entry update shared by `restart` and `try_auto_restart`:
new child handle, `record_restart` on the stats, a tracker append, and the
transition to `Running`. -/
def respawnUpdate (newPid now : Nat) (q : ManagedProcess) : ManagedProcess :=
  { q with
    stats := q.stats.record_restart newPid now
    restart_tracker := q.restart_tracker.record_restart now
    state := .Running }

/-- Result of `ProcessManager::restart` / `try_auto_restart`. -/
structure RestartOut (α : Type) where
  res : Except AdasaError α
  m : ProcessManager
  os : OsState

/-- Embedding of `ProcessManager::restart` (process/manager.rs, lines
409-438): clone the config, graceful `stop`, respawn, update the same entry
under the same id. -/
def ProcessManager.restart (m : ProcessManager) (os : OsState)
    (env : SpawnEnv) (id : Nat) : RestartOut Unit :=
  match m.find id with
  | none => ⟨.error (.ProcessNotFound (toString id)), m, os⟩
  | some p =>
    match (m.stop os id false).res with
    | .error e => ⟨.error e, (m.stop os id false).m, (m.stop os id false).os⟩
    | .ok _ =>
      match spawn_process p.config (m.stop os id false).os env with
      | .error e =>
          ⟨.error e, (m.stop os id false).m, (m.stop os id false).os⟩
      | .ok (newPid, os2) =>
        match (m.stop os id false).m.find id with
        | none =>
            ⟨.error (.ProcessNotFound (toString id)),
              (m.stop os id false).m, os2⟩
        | some _ =>
            ⟨.ok (), (m.stop os id false).m.update id
                (respawnUpdate newPid env.now), os2⟩

/-- Embedding of `ProcessManager::try_auto_restart` (process/manager.rs,
lines 449-492): consult the policy (`now` is the clock read inside
`count_recent_restarts`), sleep the backoff delay, respawn without stopping. -/
def ProcessManager.try_auto_restart (m : ProcessManager) (os : OsState)
    (env : SpawnEnv) (id : Nat) : RestartOut Bool :=
  match m.find id with
  | none => ⟨.error (.ProcessNotFound (toString id)), m, os⟩
  | some p =>
    if ¬ p.restart_policy.should_restart p.restart_tracker env.now then
      ⟨.ok false, m, os⟩
    else
      match spawn_process p.config os env with
      | .error e => ⟨.error e, m, os⟩
      | .ok (newPid, os2) =>
        match m.find id with
        | none => ⟨.error (.ProcessNotFound (toString id)), m, os2⟩
        | some _ =>
          ⟨.ok true, m.update id (respawnUpdate newPid env.now), os2⟩

/-! ## process/monitor.rs stats refresh -/

/-- Embedding of `ProcessMonitor::update_all_stats` (process/monitor.rs,
lines 106-154). The source rate-limits on `should_refresh`, collects the
pids of `Running` entries, batch-refreshes the `sysinfo` table, and writes
the fresh CPU samples into its own `cpu_cache`; the managed processes are
handed in by mutable reference and are returned as the source leaves them. -/
def ProcessMonitor.update_all_stats (mon : ProcessMonitor)
    (procs : List (Nat × ManagedProcess)) (os : OsState) (now_ms : Nat) :
    Except AdasaError Unit × ProcessMonitor × List (Nat × ManagedProcess) :=
  if ¬ mon.should_refresh now_ms then (.ok (), mon, procs)
  else
    let running_pids :=
      (procs.filter fun p => p.2.state == ProcessState.Running).map
        (·.2.stats.pid)
    if running_pids.isEmpty then (.ok (), mon, procs)
    else
      let mon1 := { mon with last_refresh := some now_ms }
      let mon2 := running_pids.foldl
        (fun acc pid =>
          if os.alive.contains pid then
            { acc with cpu_cache := cacheSet acc.cpu_cache pid (os.cpu pid) }
          else acc)
        mon1
      (.ok (), mon2, procs)

/-- Embedding of `ProcessManager::update_stats` (process/manager.rs, lines
360-363): delegates to `ProcessMonitor::update_all_stats` over all entries. -/
def ProcessManager.update_stats (m : ProcessManager) (os : OsState)
    (now_ms : Nat) : Except AdasaError Unit × ProcessManager :=
  let r := m.monitor.update_all_stats m.processes os now_ms
  (r.1, { m with monitor := r.2.1, processes := r.2.2 })

/-! ## Registry operation sequences -/

/-- One registry operation, with the environment its syscalls observe. -/
inductive Op where
  | spawn (fs : FsState) (env : SpawnEnv) (config : ProcessConfig)
  | stop (id : Nat) (force : Bool)
  | restart (env : SpawnEnv) (id : Nat)
  | tryAutoRestart (env : SpawnEnv) (id : Nat)
  | remove (id : Nat)

/-- Effect of one operation on registry and kernel state; the Rust return
value is discarded, the mutations (also those preceding an early error
return) are kept. -/
def Op.step (st : ProcessManager × OsState) (op : Op) :
    ProcessManager × OsState :=
  match op with
  | .spawn fs env config =>
      let r := st.1.spawn st.2 fs env config
      (r.m, r.os)
  | .stop id force =>
      let r := st.1.stop st.2 id force
      (r.m, r.os)
  | .restart env id =>
      let r := st.1.restart st.2 env id
      (r.m, r.os)
  | .tryAutoRestart env id =>
      let r := st.1.try_auto_restart st.2 env id
      (r.m, r.os)
  | .remove id =>
      let r := st.1.remove id
      (r.m, st.2)

/-- Registry and kernel state after running a sequence of operations from an
empty registry over an initial kernel state. -/
def runOps (os0 : OsState) (ops : List Op) : ProcessManager × OsState :=
  ops.foldl Op.step (ProcessManager.new, os0)

/-! ## state/mod.rs -/

/-- Embedding of the wire `ProcessState` (ipc/protocol.rs), the variant set
persisted in snapshots; it has the extra `Restarting` variant. -/
inductive IpcProcessState where
  | Starting | Running | Stopping | Stopped | Errored | Restarting
  deriving DecidableEq, Repr

/-- Embedding of the wire `ProcessStats` (ipc/protocol.rs) persisted in
snapshots. -/
structure IpcProcessStats where
  pid : Option Nat
  uptime : Nat
  restarts : Nat
  cpu_usage : ℚ
  memory_usage : Nat
  last_restart : Option Nat
  deriving DecidableEq, Repr

/-- Embedding of `PersistedProcess` (state/mod.rs). -/
structure PersistedProcess where
  id : Nat
  name : String
  script : String
  args : List String
  cwd : Option String
  env : List (String × String)
  state : IpcProcessState
  stats : IpcProcessStats
  autorestart : Bool
  max_restarts : Nat
  instances : Nat
  deriving DecidableEq, Repr

/-- Embedding of `STATE_VERSION` (state/mod.rs). -/
def STATE_VERSION : String := "1.0.0"

/-- Embedding of `DaemonState` (state/mod.rs). -/
structure DaemonState where
  version : String
  processes : List PersistedProcess
  last_updated : Nat
  deriving DecidableEq, Repr

/-- Embedding of `DaemonState::new`. -/
def DaemonState.new (now : Nat) : DaemonState :=
  ⟨STATE_VERSION, [], now⟩

/-- Embedding of `DaemonState::validate` (state/mod.rs, lines 50-82):
version check, then duplicate-id check, then duplicate-name check. -/
def DaemonState.validate (s : DaemonState) : Except AdasaError Unit :=
  if s.version ≠ STATE_VERSION then
    .error (.StateCorruption ("Incompatible state version: " ++ s.version))
  else if ¬ (s.processes.map (·.id)).Nodup then
    .error (.StateCorruption "Duplicate process ID found")
  else if ¬ (s.processes.map (·.name)).Nodup then
    .error (.StateCorruption "Duplicate process name found")
  else .ok ()

/-- Filesystem outcomes observed by `StateStore::load` and
`StateStore::save`: whether the snapshot file exists and can be opened, what
it deserializes to (`none` is a parse failure), and whether each write-side
step succeeds. -/
structure StateIoEnv where
  fileExists : Bool
  openOk : Bool
  parsed : Option DaemonState
  dirOk : Bool
  createOk : Bool
  writeOk : Bool
  flushOk : Bool
  renameOk : Bool

/-- Embedding of `StateStore::load` (state/mod.rs, lines 105-127): a missing
file yields a fresh empty state, otherwise the file is opened, parsed and
validated. -/
def StateStore.load (env : StateIoEnv) (now : Nat) :
    Except AdasaError DaemonState :=
  if ¬ env.fileExists then .ok (DaemonState.new now)
  else if ¬ env.openOk then
    .error (.StateLoadError "Failed to open state file")
  else
    match env.parsed with
    | none => .error (.StateLoadError "Failed to parse state file")
    | some s =>
      match s.validate with
      | .error e => .error e
      | .ok _ => .ok s

/-- Embedding of `StateStore::save` (state/mod.rs, lines 130-168): validate
first, then write to a temporary file and atomically rename it. -/
def StateStore.save (s : DaemonState) (env : StateIoEnv) :
    Except AdasaError Unit :=
  match s.validate with
  | .error e => .error e
  | .ok _ =>
    if ¬ env.dirOk then
      .error (.StateSaveError "Failed to create state directory")
    else if ¬ env.createOk then
      .error (.StateSaveError "Failed to create temp state file")
    else if ¬ env.writeOk then
      .error (.StateSaveError "Failed to serialize state")
    else if ¬ env.flushOk then
      .error (.StateSaveError "Failed to flush state file")
    else if ¬ env.renameOk then
      .error (.StateSaveError "Failed to rename temp state file")
    else .ok ()

/-! ## logs/writer.rs -/

/-- Calendar timestamp handed to the writer by `chrono::Local::now()`. -/
structure Ts where
  year : Nat
  month : Nat
  day : Nat
  hour : Nat
  minute : Nat
  second : Nat
  millis : Nat
  deriving DecidableEq, Repr

/-- Zero-padding to two digits, as chrono format codes do. -/
def pad2 (n : Nat) : String :=
  if n < 10 then "0" ++ toString n else toString n

/-- Zero-padding to three digits. -/
def pad3 (n : Nat) : String :=
  if n < 10 then "00" ++ toString n
  else if n < 100 then "0" ++ toString n
  else toString n

/-- Zero-padding to four digits. -/
def pad4 (n : Nat) : String :=
  if n < 10 then "000" ++ toString n
  else if n < 100 then "00" ++ toString n
  else if n < 1000 then "0" ++ toString n
  else toString n

/-- Rendering of the chrono pattern used inside log lines. -/
def fmtLogTs (t : Ts) : String :=
  pad4 t.year ++ "-" ++ pad2 t.month ++ "-" ++ pad2 t.day ++ " " ++
    pad2 t.hour ++ ":" ++ pad2 t.minute ++ ":" ++ pad2 t.second ++ "." ++
    pad3 t.millis

/-- Rendering of the chrono pattern used in rotated file names. -/
def fmtRotTs (t : Ts) : String :=
  pad4 t.year ++ pad2 t.month ++ pad2 t.day ++ "-" ++ pad2 t.hour ++
    pad2 t.minute ++ pad2 t.second

/-- Contents of one log file, as the list of byte strings appended to it. -/
structure LogFile where
  entries : List String
  deriving DecidableEq, Repr

/-- Embedding of `LogWriter` (logs/writer.rs) for one of the two streams of
a process (`kind` is the `out` or `err` half). `size` is the tracked size
counter the source keeps alongside the file; `rotated` maps each rotated
file name to its contents. -/
structure LogWriter where
  process_name : String
  process_id : Nat
  kind : String
  max_size : Nat
  size : Nat
  cur : LogFile
  rotated : List (String × LogFile)
  deriving DecidableEq, Repr

/-- File name of the live log file, `{name}-{id}-{out|err}.log`
(logs/writer.rs, lines 68-69). -/
def LogWriter.curFileName (w : LogWriter) : String :=
  w.process_name ++ "-" ++ toString w.process_id ++ "-" ++ w.kind ++ ".log"

/-- Name a rotation gives the old file: the source takes the live file's
stem (the name less the final `.log`) and appends `-{timestamp}.log`
(logs/writer.rs, lines 204-223). -/
def LogWriter.rotatedName (w : LogWriter) (t : Ts) : String :=
  w.process_name ++ "-" ++ toString w.process_id ++ "-" ++ w.kind ++ "-" ++
    fmtRotTs t ++ ".log"

/-- Embedding of `LogWriter::format_log_entry` (logs/writer.rs, lines
186-202). -/
def format_log_entry (t : Ts) (data : String) : String :=
  "[" ++ fmtLogTs t ++ "] " ++ data ++
    (if data.endsWith "\n" then "" else "\n")

/-- Embedding of `LogWriter::rotate_log` followed by the reopen in the write
path: the live file is renamed to the timestamped name and a fresh empty
file is opened in append mode, the tracked size resetting to zero. -/
def LogWriter.rotate_log (w : LogWriter) (t : Ts) : LogWriter :=
  { w with
    cur := ⟨[]⟩
    size := 0
    rotated := w.rotated ++ [(w.rotatedName t, w.cur)] }

/-- Embedding of `LogWriter::write_stdout` / `write_stderr` (logs/writer.rs,
lines 117-183): rotate first when the tracked size has reached `max_size`,
then append the timestamped entry and add its length to the tracked size.
The second component reports the size of the file the entry was appended
to, measured just before the append. -/
def LogWriter.write (w : LogWriter) (data : String) (t : Ts) :
    LogWriter × Nat :=
  let w1 := if w.size ≥ w.max_size then w.rotate_log t else w
  let entry := format_log_entry t data
  ({ w1 with
      cur := ⟨w1.cur.entries ++ [entry]⟩
      size := w1.size + entry.length },
    w1.size)

/-- Repeated writes, for reasoning about write sequences. -/
def LogWriter.run (w : LogWriter) (ws : List (String × Ts)) : LogWriter :=
  ws.foldl (fun acc d => (acc.write d.1 d.2).1) w

/-! ## Concrete fixtures used by witnesses and counterexamples -/

/-- A process configuration with the default TERM stop signal. -/
def cfgTERM : ProcessConfig :=
  ⟨"web", "/bin/app", [], none, [], 1, true, 10, 1, none, "SIGTERM", 5⟩

/-- A process configuration whose configured stop signal is SIGINT. -/
def cfgINT : ProcessConfig :=
  ⟨"worker", "/bin/app", [], none, [], 1, true, 10, 1, none, "SIGINT", 5⟩

/-- A running registry entry for `cfgINT` with OS pid 100. -/
def entryINT : ManagedProcess :=
  (ManagedProcess.new 1 "worker" cfgINT 100 0).mark_running

/-- A running registry entry for `cfgTERM` with OS pid 50. -/
def entryTERM : ManagedProcess :=
  (ManagedProcess.new 2 "web" cfgTERM 50 0).mark_running

/-- A registry holding only `entryINT`. -/
def mgrINT : ProcessManager := ⟨[(1, entryINT)], 2, ProcessMonitor.new⟩

/-- A registry holding only `entryTERM`. -/
def mgrTERM : ProcessManager := ⟨[(2, entryTERM)], 3, ProcessMonitor.new⟩

/-- A kernel state where pid 100 is alive, children exit within any timeout
and waits never fail. -/
def osAlive100 : OsState :=
  ⟨[100], fun _ _ => true, false, fun _ => 0, fun _ => 0⟩

/-- A kernel state where pid 50 is alive. -/
def osAlive50 : OsState :=
  ⟨[50], fun _ _ => true, false, fun _ => 0, fun _ => 0⟩

/-- Entries for the monitor fixture: one whose pid 100 is alive with 1000
bytes resident, one whose pid 200 has vanished from the OS. -/
def entryMonAlive : ManagedProcess :=
  (ManagedProcess.new 1 "mon1"
    ⟨"mon1", "/bin/sleep", ["10"], none, [], 1, true, 10, 1, none,
      "SIGTERM", 2⟩ 100 0).mark_running

/-- Companion entry whose pid is gone from the OS. -/
def entryMonDead : ManagedProcess :=
  (ManagedProcess.new 2 "mon2"
    ⟨"mon2", "/bin/sleep", ["10"], none, [], 1, true, 10, 1, none,
      "SIGTERM", 2⟩ 200 0).mark_running

/-- Kernel state for the monitor fixture: only pid 100 alive, with nonzero
CPU and memory samples. -/
def osMon : OsState :=
  ⟨[100], fun _ _ => true, false, fun _ => 7, fun _ => 1000⟩

/-- Registry for the monitor fixture. -/
def mgrMon : ProcessManager :=
  ⟨[(1, entryMonAlive), (2, entryMonDead)], 3, ProcessMonitor.new⟩

/-- Names of all registry entries, in table order. -/
def namesOf (m : ProcessManager) : List String :=
  m.processes.map fun q => q.2.name

/-- Registry well-formedness: entry names are pairwise distinct and every
key is below the id allocator. -/
def RegInv (m : ProcessManager) : Prop :=
  (namesOf m).Nodup ∧ ∀ q ∈ m.processes, q.1 < m.next_id

/-! ## Helper lemmas -/

/-- The recent-restart count equals a filter by the decidable predicate
`t ≤ now ∧ now - t < w`. -/
theorem countRecent_eq (tr : RestartTracker) (now w : Nat) :
    tr.count_recent_restarts now w =
      (tr.restart_times.filter fun t => decide (t ≤ now ∧ now - t < w)).length := by
  unfold RestartTracker.count_recent_restarts
  congr 1
  apply List.filter_congr
  intro t _
  by_cases h : t ≤ now <;> simp [durationSince, h]

/-- Lookup after the conditional map that implements `update`, at the
updated key. -/
theorem findPair_update (l : List (Nat × ManagedProcess)) (id : Nat)
    (f : ManagedProcess → ManagedProcess) :
    (l.map fun q => if q.1 == id then (q.1, f q.2) else q).find?
        (fun q => q.1 == id) =
      ((l.find? fun q => q.1 == id).map fun q => (q.1, f q.2)) := by
  induction l with
  | nil => rfl
  | cons a l ih =>
    by_cases ha : a.1 = id
    · rw [List.map_cons,
        List.find?_cons_of_pos _ (by simp [ha]),
        List.find?_cons_of_pos _ (by simp [ha])]
      simp [ha]
    · rw [List.map_cons,
        List.find?_cons_of_neg _ (by simp [ha]),
        List.find?_cons_of_neg _ (by simp [ha])]
      exact ih

/-- Lookup of the updated id after `ProcessManager.update`. -/
theorem find_update_self (m : ProcessManager) (id : Nat)
    (f : ManagedProcess → ManagedProcess) (p : ManagedProcess)
    (h : m.find id = some p) :
    (m.update id f).find id = some (f p) := by
  unfold ProcessManager.find at h ⊢
  unfold ProcessManager.update
  simp only [findPair_update]
  cases hf : m.processes.find? fun q => q.1 == id with
  | none => rw [hf] at h; cases h
  | some q =>
    rw [hf] at h
    have hq : q.2 = p := by simpa using h
    simp [hq]

/-- A killed pid is no longer in the kernel's alive list. -/
theorem contains_kill_self (os : OsState) (pid : Nat) :
    ((os.kill pid).alive.contains pid) = false := by
  unfold OsState.kill
  simp

/-- Killing one pid does not revive others: membership in the alive list
after a kill implies membership before. -/
theorem contains_kill_mono (os : OsState) (pid q : Nat)
    (h : ((os.kill pid).alive.contains q) = true) :
    os.alive.contains q = true := by
  unfold OsState.kill at h
  simp at h ⊢
  exact h.1

/-- Names of the registry after `update` with a name-preserving function. -/
theorem names_update (m : ProcessManager) (id : Nat)
    (f : ManagedProcess → ManagedProcess) (hf : ∀ q, (f q).name = q.name) :
    ((m.update id f).processes.map fun q => q.2.name) =
      m.processes.map fun q => q.2.name := by
  unfold ProcessManager.update
  simp only [List.map_map]
  apply List.map_congr_left
  intro a _
  by_cases ha : a.1 = id <;> simp [ha, hf]

/-- Keys of the registry are unchanged by `update`. -/
theorem keys_update (m : ProcessManager) (id : Nat)
    (f : ManagedProcess → ManagedProcess) :
    ((m.update id f).processes.map fun q => q.1) =
      m.processes.map fun q => q.1 := by
  unfold ProcessManager.update
  simp only [List.map_map]
  apply List.map_congr_left
  intro a _
  by_cases ha : a.1 = id <;> simp [ha]

/-- Evaluation of `stop` in the forced branch with the pid alive. -/
theorem stop_force_alive (m : ProcessManager) (os : OsState) (id : Nat)
    (p : ManagedProcess) (h : m.find id = some p)
    (halive : os.alive.contains p.stats.pid = true) :
    m.stop os id true =
      ⟨.ok (), (m.update id ManagedProcess.mark_stopping).update id
          ManagedProcess.mark_stopped, os.kill p.stats.pid,
        [(p.stats.pid, Signal.SIGKILL)]⟩ := by
  unfold ProcessManager.stop
  rw [h]
  have hmem : p.stats.pid ∈ os.alive := by simpa using halive
  simp [hmem]

/-- Evaluation of `stop` in the forced branch with the pid gone. -/
theorem stop_force_dead (m : ProcessManager) (os : OsState) (id : Nat)
    (p : ManagedProcess) (h : m.find id = some p)
    (hdead : os.alive.contains p.stats.pid = false) :
    m.stop os id true =
      ⟨.error (.StopError p.name "Failed to send SIGKILL"),
        m.update id ManagedProcess.mark_stopping, os, []⟩ := by
  unfold ProcessManager.stop
  rw [h]
  have hmem : ¬ p.stats.pid ∈ os.alive := by simpa using hdead
  simp [hmem]

/-- Inversion of a successful `spawn_process`: the returned pid is the
OS-chosen one and the kernel gains it. -/
theorem spawn_process_ok (c : ProcessConfig) (os : OsState) (env : SpawnEnv)
    (pid : Nat) (os2 : OsState)
    (h : spawn_process c os env = .ok (pid, os2)) :
    pid = env.newPid ∧ os2 = os.spawn env.newPid := by
  unfold spawn_process at h
  split_ifs at h
  injection h with h2
  injection h2 with ha hb
  exact ⟨ha.symm, hb.symm⟩

/-- A graceful stop that returns success leaves the registry at the double
`Stopping`-then-`Stopped` update of the entry. -/
theorem stop_graceful_ok (m : ProcessManager) (os : OsState) (id : Nat)
    (p : ManagedProcess) (h : m.find id = some p)
    (hok : (m.stop os id false).res = .ok ()) :
    (m.stop os id false).m =
      (m.update id ManagedProcess.mark_stopping).update id
        ManagedProcess.mark_stopped := by
  unfold ProcessManager.stop at hok ⊢
  rw [h] at hok ⊢
  by_cases hmem : p.stats.pid ∈ os.alive
  · by_cases hw : os.waitFails = true
    · simp [hmem, hw] at hok
    · by_cases hex : os.exitsWithin p.stats.pid p.config.stop_timeout = true
      · simp [hmem, hw, hex]
      · simp [hmem, hw, hex]
  · simp [hmem] at hok

/-! ## Claim C4 -/

/-- Claim C4 counterexample: a recorded timestamp strictly later than `now`
(here 11 against `now = 10`, window 60) is not counted by
`count_recent_restarts`, although the claimed formula `now - t < w`,
including any timestamp not earlier than `now`, counts it. -/
theorem c4_counterexample :
    RestartTracker.count_recent_restarts ⟨[11]⟩ 10 60 = 0 ∧
    specCountRecent ⟨[11]⟩ 10 60 = 1 ∧
    RestartTracker.count_recent_restarts ⟨[11]⟩ 10 60 ≠
      specCountRecent ⟨[11]⟩ 10 60 := by decide

/-- Claim C4 (amended): `should_restart` is true exactly when the policy is
enabled and the count of recent restarts is below `max_restarts`, where
`count_recent` counts exactly the recorded timestamps `t` with `t ≤ now`
and `now - t < w` — timestamps later than `now` are excluded because
`duration_since` fails on them — and the count is unchanged by pruning with
the same window. -/
theorem c4_count_and_gate (p : RestartPolicy) (tr : RestartTracker)
    (now w : Nat) :
    tr.count_recent_restarts now w =
      (tr.restart_times.filter fun t => decide (t ≤ now ∧ now - t < w)).length ∧
    p.should_restart tr now =
      (p.enabled &&
        decide (tr.count_recent_restarts now p.time_window_secs < p.max_restarts)) ∧
    (tr.prune_old_restarts now w).count_recent_restarts now w =
      tr.count_recent_restarts now w := by
  refine ⟨countRecent_eq tr now w, ?_, ?_⟩
  · unfold RestartPolicy.should_restart
    cases h : p.enabled <;> simp [h]
  · unfold RestartTracker.count_recent_restarts RestartTracker.prune_old_restarts
    simp [List.filter_filter]

/-! ## Claim C5 -/

/-- Claim C5 counterexample: the `restart_count as u32` cast truncates the
exponent modulo `2^32`, so at restart count `2^32` with
`initial_delay_secs = 1` and `max_delay_secs = 60` the computed delay is 1,
below the delay 2 computed at restart count 1 — monotonicity fails — and it
differs from the claimed saturating formula, which gives 60. -/
theorem c5_counterexample :
    (1 : Nat) ≤ 2 ^ 32 ∧
    ¬ ((BackoffStrategy.Exponential 60).calculate_delay 1 1 ≤
        (BackoffStrategy.Exponential 60).calculate_delay 1 (2 ^ 32)) ∧
    (BackoffStrategy.Exponential 60).calculate_delay 1 (2 ^ 32) ≠
      min (satMulU64 1 (satPow2U64 (2 ^ 32))) 60 := by
  refine ⟨by norm_num, by decide, ?_⟩
  have hpow : (2 : Nat) ^ 64 ≤ 2 ^ 2 ^ 32 :=
    Nat.pow_le_pow_right (by norm_num) (by norm_num)
  have h1 : satPow2U64 (2 ^ 32) = U64MAX := by
    unfold satPow2U64
    exact Nat.min_eq_right (le_trans (by norm_num [U64MAX]) hpow)
  rw [h1]; decide

/-- Claim C5 (amended): for restart counts below `2^32` — where the `u32`
cast of the count is lossless — the Exponential delay equals
`min(initial · 2^n, max_delay_secs)` with `u64` saturation, is bounded by
`max_delay_secs`, is non-decreasing in the count, and stays at
`max_delay_secs` once it reaches it; the Fixed strategy always yields
`initial_delay_secs`. -/
theorem c5_backoff_formula_and_monotone (initial maxd n n1 n2 : Nat)
    (h12 : n1 ≤ n2) (h2 : n2 < 2 ^ 32) (hn : n < 2 ^ 32) :
    (BackoffStrategy.Exponential maxd).calculate_delay initial n =
      min (satMulU64 initial (satPow2U64 n)) maxd ∧
    (BackoffStrategy.Exponential maxd).calculate_delay initial n ≤ maxd ∧
    (BackoffStrategy.Exponential maxd).calculate_delay initial n1 ≤
      (BackoffStrategy.Exponential maxd).calculate_delay initial n2 ∧
    ((BackoffStrategy.Exponential maxd).calculate_delay initial n1 = maxd →
      (BackoffStrategy.Exponential maxd).calculate_delay initial n2 = maxd) ∧
    BackoffStrategy.Fixed.calculate_delay initial n = initial := by
  have h1 : n1 < 2 ^ 32 := lt_of_le_of_lt h12 h2
  have hmono :
      (BackoffStrategy.Exponential maxd).calculate_delay initial n1 ≤
        (BackoffStrategy.Exponential maxd).calculate_delay initial n2 := by
    unfold BackoffStrategy.calculate_delay
    rw [Nat.mod_eq_of_lt h1, Nat.mod_eq_of_lt h2]
    refine min_le_min ?_ le_rfl
    unfold satMulU64
    refine min_le_min ?_ le_rfl
    refine Nat.mul_le_mul_left initial ?_
    unfold satPow2U64
    exact min_le_min (Nat.pow_le_pow_right (by norm_num) h12) le_rfl
  refine ⟨?_, ?_, hmono, ?_, rfl⟩
  · unfold BackoffStrategy.calculate_delay
    rw [Nat.mod_eq_of_lt hn]
  · unfold BackoffStrategy.calculate_delay
    exact min_le_right _ _
  · intro hEq
    refine le_antisymm ?_ ?_
    · unfold BackoffStrategy.calculate_delay
      exact min_le_right _ _
    · calc maxd = (BackoffStrategy.Exponential maxd).calculate_delay initial n1 :=
            hEq.symm
        _ ≤ _ := hmono

/-- Claim C5 witness: the amended statement instantiated at
`initial = 1`, `max = 60`, counts 1 ≤ 2 below `2^32`. -/
theorem c5_backoff_witness :
    (1 : Nat) ≤ 2 ∧ (2 : Nat) < 2 ^ 32 ∧ (1 : Nat) < 2 ^ 32 ∧
    ((BackoffStrategy.Exponential 60).calculate_delay 1 1 =
      min (satMulU64 1 (satPow2U64 1)) 60 ∧
    (BackoffStrategy.Exponential 60).calculate_delay 1 1 ≤ 60 ∧
    (BackoffStrategy.Exponential 60).calculate_delay 1 1 ≤
      (BackoffStrategy.Exponential 60).calculate_delay 1 2 ∧
    ((BackoffStrategy.Exponential 60).calculate_delay 1 1 = 60 →
      (BackoffStrategy.Exponential 60).calculate_delay 1 2 = 60) ∧
    BackoffStrategy.Fixed.calculate_delay 1 1 = 1) :=
  ⟨by norm_num, by norm_num, by norm_num,
    c5_backoff_formula_and_monotone 1 60 1 1 2 (by norm_num) (by norm_num)
      (by norm_num)⟩

/-! ## Claims C8 and C10 -/

/-- Characterization of `DaemonState::validate`: it succeeds exactly on the
current version with pairwise-distinct ids and names. -/
theorem validate_ok_iff (s : DaemonState) :
    s.validate = .ok () ↔
      (s.version = STATE_VERSION ∧ (s.processes.map (·.id)).Nodup ∧
        (s.processes.map (·.name)).Nodup) := by
  unfold DaemonState.validate
  split_ifs with h1 h2 h3 <;> simp_all

/-- Claim C8: `StateStore::load` returns an error for every snapshot that
exists on disk but has a version other than `1.0.0`, a duplicated process
id, or a duplicated process name; and `StateStore::save` rejects exactly
such states too, so any state it accepts passes the same validation. -/
theorem c8_snapshot_validation (env env2 : StateIoEnv) (s s2 : DaemonState)
    (now : Nat) (hex : env.fileExists = true) (hp : env.parsed = some s)
    (hbad : ¬ (s.version = STATE_VERSION ∧ (s.processes.map (·.id)).Nodup ∧
      (s.processes.map (·.name)).Nodup))
    (hok : StateStore.save s2 env2 = .ok ()) :
    (∃ e, StateStore.load env now = .error e) ∧ s2.validate = .ok () := by
  constructor
  · cases hopen : env.openOk with
    | true =>
      cases hval : s.validate with
      | error e =>
        exact ⟨e, by simp [StateStore.load, hex, hp, hopen, hval]⟩
      | ok u =>
        cases u
        exact absurd ((validate_ok_iff s).mp hval) hbad
    | false =>
      exact ⟨.StateLoadError "Failed to open state file",
        by simp [StateStore.load, hex, hp, hopen]⟩
  · unfold StateStore.save at hok
    cases hval : s2.validate with
    | error e => rw [hval] at hok; cases hok
    | ok u => cases u; rfl

/-- Claim C8 witness: a concrete on-disk snapshot with two processes named
`a` forces a load error, while a save that succeeded on a concrete valid
state certifies its validation. -/
theorem c8_snapshot_validation_witness :
    (∃ e,
      StateStore.load
        ⟨true, true,
          some ⟨STATE_VERSION,
            [⟨1, "a", "/bin/x", [], none, [], .Running,
                ⟨some 5, 0, 0, 0, 0, none⟩, true, 10, 1⟩,
             ⟨2, "a", "/bin/y", [], none, [], .Running,
                ⟨some 6, 0, 0, 0, 0, none⟩, true, 10, 1⟩],
            0⟩,
          true, true, true, true, true⟩ 7 = .error e) ∧
    DaemonState.validate ⟨STATE_VERSION, [], 3⟩ = .ok () :=
  c8_snapshot_validation _ ⟨true, true, none, true, true, true, true, true⟩
    _ ⟨STATE_VERSION, [], 3⟩ 7 rfl rfl (by decide) rfl

/-- Claim C10: when the snapshot file does not exist, `StateStore::load`
succeeds with a fresh `DaemonState`: current version string and no
processes. -/
theorem c10_load_missing_file (env : StateIoEnv) (now : Nat)
    (h : env.fileExists = false) :
    StateStore.load env now = .ok (DaemonState.new now) ∧
    (DaemonState.new now).version = "1.0.0" ∧
    (DaemonState.new now).processes = [] := by
  refine ⟨?_, rfl, rfl⟩
  unfold StateStore.load
  rw [h]
  simp

/-- Claim C10 witness: loading from a concrete environment with no snapshot
file yields the empty state. -/
theorem c10_load_missing_file_witness :
    StateStore.load ⟨false, true, none, true, true, true, true, true⟩ 42 =
      .ok (DaemonState.new 42) ∧
    (DaemonState.new 42).version = "1.0.0" ∧
    (DaemonState.new 42).processes = [] :=
  c10_load_missing_file ⟨false, true, none, true, true, true, true, true⟩ 42 rfl

/-! ## Claim C1 -/

/-- Claim C1 counterexample: the entry `entryINT` is registered with
`config.stop_signal = "SIGINT"`, yet the graceful stop delivers SIGTERM —
the source hardcodes `Signal::SIGTERM` and never consults
`config.stop_signal`. -/
theorem c1_counterexample :
    entryINT.config.stop_signal = "SIGINT" ∧
    mgrINT.find 1 = some entryINT ∧
    (mgrINT.stop osAlive100 1 false).res = .ok () ∧
    (mgrINT.stop osAlive100 1 false).events = [(100, Signal.SIGTERM)] ∧
    signalOfString entryINT.config.stop_signal ≠ some Signal.SIGTERM :=
  ⟨rfl, rfl, rfl, rfl, by decide⟩

/-- Claim C1 (amended): for every registered id whose pid is alive and whose
wait does not fail, `Stop(id, force=true)` delivers SIGKILL immediately, and
`Stop(id, force=false)` delivers SIGTERM — the hardcoded signal, regardless
of `config.stop_signal` — then awaits child exit with timeout
`config.stop_timeout_secs` and delivers SIGKILL exactly when that timeout
elapses. -/
theorem c1_stop_signal_delivery (m : ProcessManager) (os : OsState)
    (id : Nat) (p : ManagedProcess) (h : m.find id = some p)
    (halive : os.alive.contains p.stats.pid = true)
    (hwait : os.waitFails = false) :
    (m.stop os id true).events = [(p.stats.pid, Signal.SIGKILL)] ∧
    (m.stop os id true).res = .ok () ∧
    (m.stop os id false).events =
      (p.stats.pid, Signal.SIGTERM) ::
        (if os.exitsWithin p.stats.pid p.config.stop_timeout then []
          else [(p.stats.pid, Signal.SIGKILL)]) ∧
    (m.stop os id false).res = .ok () := by
  have hmem : p.stats.pid ∈ os.alive := by simpa using halive
  unfold ProcessManager.stop
  rw [h]
  cases hex : os.exitsWithin p.stats.pid p.config.stop_timeout <;>
    simp [hmem, hwait, hex]

/-- Claim C1 witness: the amended statement instantiated at the concrete
registry `mgrTERM` (pid 50 alive, child exiting within the timeout). -/
theorem c1_stop_signal_delivery_witness :
    mgrTERM.find 2 = some entryTERM ∧
    osAlive50.alive.contains entryTERM.stats.pid = true ∧
    osAlive50.waitFails = false ∧
    ((mgrTERM.stop osAlive50 2 true).events =
        [(entryTERM.stats.pid, Signal.SIGKILL)] ∧
      (mgrTERM.stop osAlive50 2 true).res = .ok () ∧
      (mgrTERM.stop osAlive50 2 false).events =
        (entryTERM.stats.pid, Signal.SIGTERM) ::
          (if osAlive50.exitsWithin entryTERM.stats.pid
              entryTERM.config.stop_timeout then []
            else [(entryTERM.stats.pid, Signal.SIGKILL)]) ∧
      (mgrTERM.stop osAlive50 2 false).res = .ok ()) :=
  ⟨rfl, rfl, rfl, c1_stop_signal_delivery mgrTERM osAlive50 2 entryTERM rfl rfl rfl⟩

/-! ## Claim C2 -/

/-- Claim C2 counterexample: after one successful `Stop(2, force=true)` on
the concrete registry `mgrTERM`, a second forced stop does not return
success — SIGKILL delivery to the already-reaped pid 50 fails — and it
leaves the entry in state `Stopping`, not `Stopped`. -/
theorem c2_counterexample :
    (mgrTERM.stop osAlive50 2 true).res = .ok () ∧
    ((mgrTERM.stop osAlive50 2 true).m.find 2).map (·.state) =
      some .Stopped ∧
    ((mgrTERM.stop osAlive50 2 true).m.stop
        (mgrTERM.stop osAlive50 2 true).os 2 true).res =
      .error (.StopError "web" "Failed to send SIGKILL") ∧
    (((mgrTERM.stop osAlive50 2 true).m.stop
        (mgrTERM.stop osAlive50 2 true).os 2 true).m.find 2).map (·.state) =
      some .Stopping :=
  ⟨rfl, rfl, rfl, rfl⟩

/-- Claim C2 (amended): forced stop is not idempotent. For every registered
id whose pid is alive, the first `Stop(id, force=true)` succeeds and leaves
the entry `Stopped` with the pid reaped, but the second forced stop fails
with `StopError` — SIGKILL cannot be delivered to the reaped pid — and
leaves the entry in state `Stopping`. -/
theorem c2_forced_stop_not_idempotent (m : ProcessManager) (os : OsState)
    (id : Nat) (p : ManagedProcess) (h : m.find id = some p)
    (halive : os.alive.contains p.stats.pid = true) :
    (m.stop os id true).res = .ok () ∧
    ((m.stop os id true).m.find id).map (·.state) = some .Stopped ∧
    ((m.stop os id true).m.stop (m.stop os id true).os id true).res =
      .error (.StopError p.name "Failed to send SIGKILL") ∧
    (((m.stop os id true).m.stop (m.stop os id true).os id true).m.find
        id).map (·.state) = some .Stopping := by
  have hstop := stop_force_alive m os id p h halive
  have hfind1 :
      (m.stop os id true).m.find id =
        some ((p.mark_stopping).mark_stopped) := by
    rw [hstop]
    exact find_update_self _ id _ _ (find_update_self m id _ p h)
  have hdead :
      ((m.stop os id true).os.alive.contains
        ((p.mark_stopping).mark_stopped).stats.pid) = false := by
    rw [hstop]
    exact contains_kill_self os p.stats.pid
  have hstop2 := stop_force_dead (m.stop os id true).m (m.stop os id true).os
    id ((p.mark_stopping).mark_stopped) hfind1 hdead
  refine ⟨by rw [hstop], by rw [hfind1]; rfl, ?_, ?_⟩
  · rw [hstop2]; rfl
  · rw [hstop2]
    have hf2 := find_update_self (m.stop os id true).m id
      ManagedProcess.mark_stopping _ hfind1
    simp only [hf2]
    rfl

/-- Claim C2 witness: the amended statement instantiated at the concrete
registry `mgrTERM` with pid 50 alive. -/
theorem c2_forced_stop_not_idempotent_witness :
    mgrTERM.find 2 = some entryTERM ∧
    osAlive50.alive.contains entryTERM.stats.pid = true ∧
    ((mgrTERM.stop osAlive50 2 true).res = .ok () ∧
      ((mgrTERM.stop osAlive50 2 true).m.find 2).map (·.state) =
        some .Stopped ∧
      ((mgrTERM.stop osAlive50 2 true).m.stop
          (mgrTERM.stop osAlive50 2 true).os 2 true).res =
        .error (.StopError entryTERM.name "Failed to send SIGKILL") ∧
      (((mgrTERM.stop osAlive50 2 true).m.stop
          (mgrTERM.stop osAlive50 2 true).os 2 true).m.find 2).map
          (·.state) = some .Stopping) :=
  ⟨rfl, rfl, c2_forced_stop_not_idempotent mgrTERM osAlive50 2 entryTERM rfl rfl⟩

/-! ## Claim C3 -/

/-- Claim C3: a successful `Restart(id)` keeps the entry's id and name,
increments `stats.restarts` by exactly one, moves `stats.pid` to the fresh
OS pid — different from the pre-call pid whenever the OS does not reuse it —
sets `stats.started_at` to the strictly later current time, and appends one
timestamp to the restart tracker. -/
theorem c3_restart_identity (m : ProcessManager) (os : OsState)
    (env : SpawnEnv) (id : Nat) (p : ManagedProcess)
    (h : m.find id = some p)
    (hok : (m.restart os env id).res = .ok ())
    (hpid : env.newPid ≠ p.stats.pid)
    (hnow : p.stats.started_at < env.now) :
    ∃ q, (m.restart os env id).m.find id = some q ∧
      q.id = p.id ∧ q.name = p.name ∧
      q.stats.restarts = p.stats.restarts + 1 ∧
      q.stats.pid ≠ p.stats.pid ∧
      p.stats.started_at < q.stats.started_at ∧
      q.restart_tracker.restart_times =
        p.restart_tracker.restart_times ++ [env.now] := by
  cases hres : (m.stop os id false).res with
  | error e =>
    unfold ProcessManager.restart at hok
    simp only [h, hres] at hok
    cases hok
  | ok u =>
    cases u
    have hm1 : (m.stop os id false).m =
        (m.update id ManagedProcess.mark_stopping).update id
          ManagedProcess.mark_stopped :=
      stop_graceful_ok m os id p h hres
    have hfind : (m.stop os id false).m.find id =
        some ((p.mark_stopping).mark_stopped) := by
      rw [hm1]
      exact find_update_self _ id _ _ (find_update_self m id _ p h)
    cases hsp : spawn_process p.config (m.stop os id false).os env with
    | error e =>
      unfold ProcessManager.restart at hok
      simp only [h, hres, hsp] at hok
      cases hok
    | ok pr =>
      obtain ⟨npid, os2⟩ := pr
      obtain ⟨hnp, _⟩ := spawn_process_ok _ _ _ _ _ hsp
      subst hnp
      unfold ProcessManager.restart
      simp only [h, hres, hsp, hfind]
      exact ⟨_, find_update_self (m.stop os id false).m id _ _ hfind, rfl,
        rfl, rfl, hpid, hnow, rfl⟩

/-- Claim C3 witness: restarting the concrete entry `entryTERM` (pid 50,
started at 0) with the OS handing out fresh pid 999 at time 10. -/
theorem c3_restart_identity_witness :
    mgrTERM.find 2 = some entryTERM ∧
    (mgrTERM.restart osAlive50 ⟨true, true, true, 999, 10⟩ 2).res = .ok () ∧
    (999 : Nat) ≠ entryTERM.stats.pid ∧
    entryTERM.stats.started_at < 10 ∧
    ∃ q, (mgrTERM.restart osAlive50 ⟨true, true, true, 999, 10⟩ 2).m.find 2 =
        some q ∧
      q.id = entryTERM.id ∧ q.name = entryTERM.name ∧
      q.stats.restarts = entryTERM.stats.restarts + 1 ∧
      q.stats.pid ≠ entryTERM.stats.pid ∧
      entryTERM.stats.started_at < q.stats.started_at ∧
      q.restart_tracker.restart_times =
        entryTERM.restart_tracker.restart_times ++ [10] :=
  ⟨rfl, rfl, by decide, by decide,
    c3_restart_identity mgrTERM osAlive50 ⟨true, true, true, 999, 10⟩ 2
      entryTERM rfl rfl (by decide) (by decide)⟩

/-! ## Claim C7 -/

/-- Claim C7: `ProcessMonitor::update_all_stats` — and therefore
`ProcessManager::update_stats` — never writes back to the registry entries:
it returns them exactly as given, only refreshing the monitor's private
`cpu_cache`. At the concrete fixture, the Running entry with live pid 100
keeps `memory_usage = 0` and `cpu_usage = 0` although the OS reports 1000
bytes and 7 percent, and the Running entry whose pid 200 has vanished stays
`Running` instead of being marked `Errored`. This contradicts the claim and
the repo's own `test_update_stats`, which asserts `memory_usage > 0` after
`update_stats`. -/
theorem c7_update_stats_never_writes (mon : ProcessMonitor)
    (procs : List (Nat × ManagedProcess)) (os : OsState) (now_ms : Nat)
    (m : ProcessManager) :
    (mon.update_all_stats procs os now_ms).2.2 = procs ∧
    (m.update_stats os now_ms).2.processes = m.processes ∧
    ((mgrMon.update_stats osMon 5000).2.find 1).map (·.stats.memory_usage) =
      some 0 ∧
    osMon.mem 100 = 1000 ∧
    ((mgrMon.update_stats osMon 5000).2.find 1).map (·.stats.cpu_usage) =
      some 0 ∧
    osMon.cpu 100 = 7 ∧
    ((mgrMon.update_stats osMon 5000).2.find 2).map (·.state) =
      some .Running ∧
    osMon.alive.contains 200 = false := by
  have hall : ∀ (mon' : ProcessMonitor)
      (procs' : List (Nat × ManagedProcess)),
      (mon'.update_all_stats procs' os now_ms).2.2 = procs' := by
    intro mon' procs'
    unfold ProcessMonitor.update_all_stats
    split_ifs <;> first
      | rfl
      | (dsimp only; split <;> rfl)
  exact ⟨hall mon procs, hall m.monitor m.processes, rfl, rfl, rfl, rfl,
    rfl, rfl⟩

/-! ## Claim C9 -/

/-- Claim C9 counterexample: with a configured maximum size of 0 the writer
rotates and then still appends the entry to a file whose size, 0, is at the
maximum — so the guarantee that no write is appended to a file already at or
above the maximum fails for `M = 0`. -/
theorem c9_counterexample :
    (LogWriter.mk "p" 1 "out" 0 0 ⟨[]⟩ []).max_size = 0 ∧
    ((LogWriter.mk "p" 1 "out" 0 0 ⟨[]⟩ []).write "hi"
        ⟨2025, 1, 2, 3, 4, 5, 6⟩).2 ≥
      (LogWriter.mk "p" 1 "out" 0 0 ⟨[]⟩ []).max_size ∧
    ((LogWriter.mk "p" 1 "out" 0 0 ⟨[]⟩ []).write "hi"
        ⟨2025, 1, 2, 3, 4, 5, 6⟩).1.cur.entries ≠ [] :=
  ⟨rfl, le_refl 0, by decide⟩

/-- Claim C9 (amended): provided the configured maximum size is at least one
byte, a write that finds the current file size at or above the maximum first
renames the file to `{name}-{id}-{out|err}-{YYYYMMDD-HHMMSS}.log` and opens
a fresh file before writing; a write below the maximum rotates nothing and
appends; the entry is always appended to a file strictly below the maximum;
and every written entry carries the bracketed
`[YYYY-MM-DD HH:MM:SS.mmm] ` local-time stamp in front. -/
theorem c9_rotation_semantics (w : LogWriter) (data : String) (t : Ts)
    (hM : 1 ≤ w.max_size) :
    (w.size ≥ w.max_size →
      (w.write data t).1.rotated =
        w.rotated ++ [(w.process_name ++ "-" ++ toString w.process_id ++
          "-" ++ w.kind ++ "-" ++ fmtRotTs t ++ ".log", w.cur)] ∧
      (w.write data t).1.cur.entries = [format_log_entry t data]) ∧
    (w.size < w.max_size →
      (w.write data t).1.rotated = w.rotated ∧
      (w.write data t).1.cur.entries =
        w.cur.entries ++ [format_log_entry t data]) ∧
    (w.write data t).2 < w.max_size ∧
    format_log_entry t data =
      "[" ++ fmtLogTs t ++ "] " ++
        (data ++ if data.endsWith "\n" then "" else "\n") := by
  have hfmt : format_log_entry t data =
      "[" ++ fmtLogTs t ++ "] " ++
        (data ++ if data.endsWith "\n" then "" else "\n") := by
    simp [format_log_entry, String.append_assoc]
  by_cases hge : w.size ≥ w.max_size
  · refine ⟨fun _ => ?_, fun hlt => absurd hge (not_le.mpr hlt), ?_, hfmt⟩
    · constructor
      · simp [LogWriter.write, LogWriter.rotate_log, LogWriter.rotatedName,
          hge]
      · simp [LogWriter.write, LogWriter.rotate_log, hge]
    · simp only [LogWriter.write, LogWriter.rotate_log, if_pos hge]
      exact hM
  · have hlt : w.size < w.max_size := not_le.mp hge
    refine ⟨fun hcon => absurd hcon hge, fun _ => ?_, ?_, hfmt⟩
    · constructor <;> simp [LogWriter.write, if_neg hge]
    · simp only [LogWriter.write, if_neg hge]
      exact hlt

/-- Claim C9 witness: one write on a concrete fresh writer with a 100-byte
maximum; the file is below the maximum, nothing rotates, and the entry is
timestamped. -/
theorem c9_rotation_semantics_witness :
    (1 : Nat) ≤ (LogWriter.mk "p" 1 "out" 100 0 ⟨[]⟩ []).max_size ∧
    (((LogWriter.mk "p" 1 "out" 100 0 ⟨[]⟩ []).size ≥ 100 →
      ((LogWriter.mk "p" 1 "out" 100 0 ⟨[]⟩ []).write "hi"
          ⟨2025, 1, 2, 3, 4, 5, 6⟩).1.rotated =
        [] ++ [("p" ++ "-" ++ toString (1 : Nat) ++ "-" ++ "out" ++ "-" ++
          fmtRotTs ⟨2025, 1, 2, 3, 4, 5, 6⟩ ++ ".log",
          (⟨[]⟩ : LogFile))] ∧
      ((LogWriter.mk "p" 1 "out" 100 0 ⟨[]⟩ []).write "hi"
          ⟨2025, 1, 2, 3, 4, 5, 6⟩).1.cur.entries =
        [format_log_entry ⟨2025, 1, 2, 3, 4, 5, 6⟩ "hi"]) ∧
    ((LogWriter.mk "p" 1 "out" 100 0 ⟨[]⟩ []).size < 100 →
      ((LogWriter.mk "p" 1 "out" 100 0 ⟨[]⟩ []).write "hi"
          ⟨2025, 1, 2, 3, 4, 5, 6⟩).1.rotated = [] ∧
      ((LogWriter.mk "p" 1 "out" 100 0 ⟨[]⟩ []).write "hi"
          ⟨2025, 1, 2, 3, 4, 5, 6⟩).1.cur.entries =
        [] ++ [format_log_entry ⟨2025, 1, 2, 3, 4, 5, 6⟩ "hi"]) ∧
    ((LogWriter.mk "p" 1 "out" 100 0 ⟨[]⟩ []).write "hi"
        ⟨2025, 1, 2, 3, 4, 5, 6⟩).2 < 100 ∧
    format_log_entry ⟨2025, 1, 2, 3, 4, 5, 6⟩ "hi" =
      "[" ++ fmtLogTs ⟨2025, 1, 2, 3, 4, 5, 6⟩ ++ "] " ++
        ("hi" ++ if ("hi" : String).endsWith "\n" then "" else "\n")) :=
  ⟨by norm_num,
    c9_rotation_semantics (LogWriter.mk "p" 1 "out" 100 0 ⟨[]⟩ []) "hi"
      ⟨2025, 1, 2, 3, 4, 5, 6⟩ (by norm_num)⟩

/-! ## Claim C6 -/

/-- Well-formedness is preserved by `update` with a name-preserving
function. -/
theorem regInv_update (m : ProcessManager) (id : Nat)
    (f : ManagedProcess → ManagedProcess)
    (hf : ∀ q, (f q).name = q.name) (h : RegInv m) :
    RegInv (m.update id f) := by
  refine ⟨?_, ?_⟩
  · show ((m.update id f).processes.map fun q => q.2.name).Nodup
    rw [names_update m id f hf]
    exact h.1
  · intro q hq
    unfold ProcessManager.update at hq
    simp only [List.mem_map] at hq
    obtain ⟨a, ha, rfl⟩ := hq
    have hlt := h.2 a ha
    have hfst : (if a.1 == id then (a.1, f a.2) else a).1 = a.1 := by
      by_cases h1 : a.1 = id <;> simp [h1]
    show (if a.1 == id then (a.1, f a.2) else a).1 < m.next_id
    rw [hfst]
    exact hlt

/-- Well-formedness is preserved by `stop`. -/
theorem regInv_stop (m : ProcessManager) (os : OsState) (id : Nat)
    (force : Bool) (h : RegInv m) : RegInv (m.stop os id force).m := by
  cases hf : m.find id with
  | none =>
    unfold ProcessManager.stop
    rw [hf]
    exact h
  | some p =>
    unfold ProcessManager.stop
    rw [hf]
    dsimp only
    split_ifs <;>
      first
        | exact regInv_update _ _ _ (fun q => rfl) h
        | exact regInv_update _ _ _ (fun q => rfl)
            (regInv_update _ _ _ (fun q => rfl) h)

/-- Well-formedness is preserved by `spawn`: on the duplicate-name path the
registry is untouched, on the success path the fresh key carries a name that
was absent. -/
theorem regInv_spawn (m : ProcessManager) (os : OsState) (fs : FsState)
    (env : SpawnEnv) (config : ProcessConfig) (h : RegInv m) :
    RegInv (m.spawn os fs env config).m := by
  unfold ProcessManager.spawn
  cases hdup : m.processes.any (fun p => p.2.name == config.name) with
  | true =>
    rw [if_pos rfl]
    exact h
  | false =>
    rw [if_neg (by exact Bool.false_ne_true)]
    cases config.validate fs with
    | error e => exact h
    | ok u =>
      cases spawn_process config os env with
      | error e => exact h
      | ok pr =>
        obtain ⟨pid, os1⟩ := pr
        dsimp only
        have hfresh :
            ¬ m.processes.any (fun p => p.1 == m.next_id) = true := by
          rw [List.any_eq_true]
          rintro ⟨q, hq, he⟩
          have hlt := h.2 q hq
          rw [beq_iff_eq] at he
          omega
        have hins : insertPair m.processes m.next_id
            ((ManagedProcess.new m.next_id config.name config pid
              env.now).mark_running) =
            m.processes ++ [(m.next_id,
              (ManagedProcess.new m.next_id config.name config pid
                env.now).mark_running)] := by
          unfold insertPair
          rw [if_neg hfresh]
        constructor
        · show ((insertPair m.processes m.next_id _).map
            fun q => q.2.name).Nodup
          rw [hins]
          simp only [List.map_append, List.map_cons, List.map_nil]
          rw [List.nodup_append]
          refine ⟨h.1, List.nodup_singleton _, ?_⟩
          intro a ha hb
          simp only [List.mem_singleton] at hb
          subst hb
          simp only [List.mem_map] at ha
          obtain ⟨q, hq, he⟩ := ha
          have hcontra : m.processes.any
              (fun p => p.2.name == config.name) = true := by
            rw [List.any_eq_true]
            refine ⟨q, hq, ?_⟩
            rw [beq_iff_eq]
            exact he
          rw [hdup] at hcontra
          exact Bool.false_ne_true hcontra
        · intro q hq
          rw [hins] at hq
          show q.1 < m.next_id + 1
          rcases List.mem_append.mp hq with hq | hq
          · have := h.2 q hq
            omega
          · simp only [List.mem_singleton] at hq
            subst hq
            omega

/-- Well-formedness is preserved by `try_auto_restart`. -/
theorem regInv_try_auto_restart (m : ProcessManager) (os : OsState)
    (env : SpawnEnv) (id : Nat) (h : RegInv m) :
    RegInv (m.try_auto_restart os env id).m := by
  cases hf : m.find id with
  | none =>
    unfold ProcessManager.try_auto_restart
    rw [hf]
    exact h
  | some p =>
    unfold ProcessManager.try_auto_restart
    rw [hf]
    dsimp only
    split_ifs
    · cases spawn_process p.config os env with
      | error e => exact h
      | ok pr =>
        obtain ⟨pid, os2⟩ := pr
        dsimp only
        exact regInv_update _ _ _ (fun q => rfl) h
    · exact h

/-- Well-formedness is preserved by `restart`. -/
theorem regInv_restart (m : ProcessManager) (os : OsState) (env : SpawnEnv)
    (id : Nat) (h : RegInv m) : RegInv (m.restart os env id).m := by
  cases hf : m.find id with
  | none =>
    unfold ProcessManager.restart
    rw [hf]
    exact h
  | some p =>
    unfold ProcessManager.restart
    rw [hf]
    dsimp only
    have hstop := regInv_stop m os id false h
    cases (m.stop os id false).res with
    | error e => exact hstop
    | ok u =>
      dsimp only
      cases spawn_process p.config (m.stop os id false).os env with
      | error e => exact hstop
      | ok pr =>
        obtain ⟨pid, os2⟩ := pr
        dsimp only
        cases (m.stop os id false).m.find id with
        | none => exact hstop
        | some q => exact regInv_update _ _ _ (fun q => rfl) hstop

/-- Well-formedness is preserved by `remove`. -/
theorem regInv_remove (m : ProcessManager) (id : Nat) (h : RegInv m) :
    RegInv (m.remove id).m := by
  cases hf : m.find id with
  | none =>
    unfold ProcessManager.remove
    rw [hf]
    exact h
  | some p =>
    unfold ProcessManager.remove
    rw [hf]
    dsimp only
    constructor
    · show (((m.processes.filter fun q => ¬ q.1 = id).map
        fun q => q.2.name)).Nodup
      exact List.Nodup.sublist
        ((List.filter_sublist m.processes).map fun q => q.2.name) h.1
    · intro q hq
      exact h.2 q (List.mem_of_mem_filter hq)

/-- Well-formedness is preserved by every registry operation. -/
theorem regInv_step (st : ProcessManager × OsState) (op : Op)
    (h : RegInv st.1) : RegInv (Op.step st op).1 := by
  cases op with
  | spawn fs env config => exact regInv_spawn st.1 st.2 fs env config h
  | stop id force => exact regInv_stop st.1 st.2 id force h
  | restart env id => exact regInv_restart st.1 st.2 env id h
  | tryAutoRestart env id => exact regInv_try_auto_restart st.1 st.2 env id h
  | remove id => exact regInv_remove st.1 id h

/-- Well-formedness holds in every state reachable from the empty registry. -/
theorem regInv_runOps (os0 : OsState) (ops : List Op) :
    RegInv (runOps os0 ops).1 := by
  unfold runOps
  have hgen : ∀ (st : ProcessManager × OsState), RegInv st.1 →
      RegInv (ops.foldl Op.step st).1 := by
    induction ops with
    | nil => intro st h; exact h
    | cons op ops ih =>
      intro st h
      exact ih _ (regInv_step st op h)
  exact hgen _ ⟨List.nodup_nil, by intro q hq; cases hq⟩

/-- Claim C6: in every registry state reachable from the empty registry by
any sequence of spawn, stop, restart, try_auto_restart and remove
operations, entry names are pairwise distinct; and spawning a config whose
name collides with an existing entry fails with `ProcessAlreadyExists`,
leaving registry and kernel state unchanged. -/
theorem c6_registry_name_uniqueness (os0 : OsState) (ops : List Op)
    (m : ProcessManager) (os : OsState) (fs : FsState) (env : SpawnEnv)
    (config : ProcessConfig)
    (hdup : config.name ∈ m.processes.map fun q => q.2.name) :
    ((runOps os0 ops).1.processes.map fun q => q.2.name).Nodup ∧
    (m.spawn os fs env config).res =
      .error (.ProcessAlreadyExists config.name) ∧
    (m.spawn os fs env config).m = m ∧
    (m.spawn os fs env config).os = os := by
  have hany : m.processes.any (fun p => p.2.name == config.name) = true := by
    rw [List.any_eq_true]
    simp only [List.mem_map] at hdup
    obtain ⟨q, hq, he⟩ := hdup
    exact ⟨q, hq, by rw [beq_iff_eq]; exact he⟩
  refine ⟨(regInv_runOps os0 ops).1, ?_, ?_, ?_⟩ <;>
    · unfold ProcessManager.spawn
      rw [hany]
      rfl

/-- Claim C6 witness: one spawn from the empty registry keeps names
distinct, and spawning the name `web` into the concrete registry `mgrTERM`,
which already holds it, is rejected without any change. -/
theorem c6_registry_name_uniqueness_witness :
    cfgTERM.name ∈ mgrTERM.processes.map (fun q => q.2.name) ∧
    (((runOps osAlive50
        [Op.spawn ⟨fun _ => true, fun _ => true⟩ ⟨true, true, true, 77, 3⟩
          cfgTERM]).1.processes.map fun q => q.2.name).Nodup ∧
    (mgrTERM.spawn osAlive50 ⟨fun _ => true, fun _ => true⟩
        ⟨true, true, true, 77, 3⟩ cfgTERM).res =
      .error (.ProcessAlreadyExists cfgTERM.name) ∧
    (mgrTERM.spawn osAlive50 ⟨fun _ => true, fun _ => true⟩
        ⟨true, true, true, 77, 3⟩ cfgTERM).m = mgrTERM ∧
    (mgrTERM.spawn osAlive50 ⟨fun _ => true, fun _ => true⟩
        ⟨true, true, true, 77, 3⟩ cfgTERM).os = osAlive50) :=
  ⟨by simp [mgrTERM, entryTERM, ManagedProcess.new, cfgTERM,
      ManagedProcess.mark_running],
    c6_registry_name_uniqueness osAlive50
      [Op.spawn ⟨fun _ => true, fun _ => true⟩ ⟨true, true, true, 77, 3⟩
        cfgTERM]
      mgrTERM osAlive50 ⟨fun _ => true, fun _ => true⟩
      ⟨true, true, true, 77, 3⟩ cfgTERM
      (by simp [mgrTERM, entryTERM, ManagedProcess.new, cfgTERM,
        ManagedProcess.mark_running])⟩

end Adasa
